import Mathlib

/-!
Verification development for the `giscanner` cache store and C-compiler
abstraction (`giscanner/cachestore.py`, `giscanner/ccompiler.py`).

The Python modules are shallowly embedded below.  Conventions of the
embedding:

* File modification times are natural numbers (`st_mtime`).
* The cache directory's contents are modelled per cache key: the SHA-1
  hex-digest filename used by `CacheStore._get_filename` is injective on
  keys, so the store file of key `k` is identified by `k` itself.
* The source file named by a cache key is assumed to exist (all claims
  presuppose it); its mtime is the total function `FSys.srcMtime`.
* Python exceptions are values of `PyErr`; an operation that can raise
  returns its (possibly updated) filesystem together with the raised
  exception, if any.
* `cPickle.dump` writing to an already-opened file either succeeds or
  raises `IOError` with some errno; this outcome is a parameter
  (`WriteOutcome`) of `store`.  Opening a file for writing is assumed to
  succeed; opening for reading succeeds exactly when the file exists
  (a missing file raises `IOError` with `ENOENT`).
-/

deriving instance DecidableEq for Except

namespace GIR

/-! ### Errno constants (Linux values) -/

def EPERM : Nat := 1

def ENOENT : Nat := 2

def EACCES : Nat := 13

def ENOSPC : Nat := 28

/-! ### Python exceptions -/

inductive PyErr where
  | ioError (errno2 : Nat)
  | osError (errno2 : Nat)
  | attributeError
  | eofError
  deriving DecidableEq, Repr

/-- Content of a cache store file: either a complete pickle of a value, or a
truncated payload (for instance a zero-byte file) on which `cPickle.load`
raises `EOFError`. -/
inductive Content (α : Type) where
  | val (a : α)
  | truncated
  deriving DecidableEq, Repr

/-- The filesystem as seen by the cache: the mtime of each source file
(assumed to exist), and for each cache key the store file written for it,
if any, as a pair of its mtime and its content. -/
structure FSys (α : Type) where
  srcMtime : String → Nat
  entry : String → Option (Nat × Content α)

/-- Replace (or delete, with `none`) the store file of key `sf`. -/
def setEntry {α : Type} (fs : FSys α) (sf : String) (e : Option (Nat × Content α)) : FSys α :=
  { fs with entry := fun k2 => if k2 = sf then e else fs.entry k2 }

/-- Advance the mtime of the source file of key `k` to `t` (touching it). -/
def setSrcMtime {α : Type} (fs : FSys α) (k : String) (t : Nat) : FSys α :=
  { fs with srcMtime := fun k2 => if k2 = k then t else fs.srcMtime k2 }

/-- `CacheStore`: `_directory` is `none` when caching is disabled (the
cache directory could not be used), mirroring `self._directory = None`. -/
structure CacheStore where
  _directory : Option Unit
  deriving DecidableEq, Repr

/-- A cache store whose directory was created successfully. -/
def enabledStore : CacheStore := ⟨some ()⟩

/-- `CacheStore._get_filename`: `None` when caching is disabled, otherwise
the store path for the key.  The SHA-1 hex digest is injective on keys, so
the store path is modelled by the key itself. -/
def _get_filename (c : CacheStore) (filename : String) : Option String :=
  c._directory.map (fun _ => filename)

/-- `CacheStore._cache_is_valid`:
`os.stat(store_filename).st_mtime >= os.stat(filename).st_mtime`. -/
def _cache_is_valid (store_mtime file_mtime : Nat) : Bool :=
  file_mtime ≤ store_mtime

/-- The guard of `CacheStore.store`:
`os.path.exists(store_filename) and self._cache_is_valid(store_filename, filename)`. -/
def existsAndValid {α : Type} (fs : FSys α) (sf k : String) : Bool :=
  match fs.entry sf with
  | some (mt, _) => _cache_is_valid mt (fs.srcMtime k)
  | none => false

/-- Attribute lookup on a Python 2 `IOError` instance.  Such an instance
defines `errno` (together with `strerror`, `filename`, `args`, which the
code under study never reads), and nothing else; looking up any other
attribute raises `AttributeError`, represented by `none`. -/
def ioErrorAttr (errno2 : Nat) (attr : String) : Option Nat :=
  if attr = "errno" then some errno2 else none

/-- The `except IOError` handler of `CacheStore.store`:
`if e.errno == e.ENOSPC: return / else: raise`.  The comparison reads the
attribute `ENOSPC` off the `IOError` instance `e`; an `IOError` instance
has no such attribute, so the lookup itself raises `AttributeError`. -/
def storeDumpHandler (n : Nat) : Except PyErr Unit :=
  match ioErrorAttr n "ENOSPC" with
  | none => Except.error PyErr.attributeError
  | some sentinel =>
    if n = sentinel then Except.ok () else Except.error (PyErr.ioError n)

/-- Outcome of the `cPickle.dump(data, fd)` write inside `store`. -/
inductive WriteOutcome where
  | ok
  | ioError (errno2 : Nat)
  deriving DecidableEq, Repr

/-- `CacheStore.store(filename, data)`.  `now` is the current time, which
becomes the mtime of a store file written by this call.  `open(store_filename, 'w')`
truncates the file before `cPickle.dump` runs, so a failed dump leaves a
truncated file behind.  Returns the updated filesystem and the exception
that propagates out of `store`, if any. -/
def store {α : Type} (c : CacheStore) (fs : FSys α) (k : String) (v : α) (now : Nat)
    (wr : WriteOutcome) : FSys α × Option PyErr :=
  match _get_filename c k with
  | none => (fs, none)
  | some sf =>
    if existsAndValid fs sf k then (fs, none)
    else
      let fs1 := setEntry fs sf (some (now, Content.truncated))
      match wr with
      | WriteOutcome.ok => (setEntry fs1 sf (some (now, Content.val v)), none)
      | WriteOutcome.ioError n =>
        match storeDumpHandler n with
        | Except.ok _ => (fs1, none)
        | Except.error e => (fs1, some e)

/-- `CacheStore._purge_cache(filename)`: `os.unlink` succeeds when the file
exists (permission failures are outside this model), and raises `OSError`
with `ENOENT` when it does not.  The handler catches `IOError`, which in
Python 2 is a type distinct from the `OSError` that `os.unlink` raises, so
any unlink failure propagates. -/
def _purge_cache {α : Type} (fs : FSys α) (sf : String) : FSys α × Option PyErr :=
  match fs.entry sf with
  | some _ => (setEntry fs sf none, none)
  | none => (fs, some (PyErr.osError ENOENT))

/-- `CacheStore.load(filename)`: returns the updated filesystem and either
the raised exception or the loaded value (`none` standing for Python's
`None`, i.e. a cache miss). -/
def load {α : Type} (c : CacheStore) (fs : FSys α) (k : String) :
    FSys α × Except PyErr (Option α) :=
  match _get_filename c k with
  | none => (fs, Except.ok none)
  | some sf =>
    match fs.entry sf with
    | none => (fs, Except.ok none)
    | some (mt, content) =>
      if _cache_is_valid mt (fs.srcMtime k) then
        match content with
        | Content.val v => (fs, Except.ok (some v))
        | Content.truncated =>
          match _purge_cache fs sf with
          | (fs2, none) => (fs2, Except.ok none)
          | (fs2, some e) => (fs2, Except.error e)
      else (fs, Except.ok none)

/-! ### Cache directory creation -/

/-- Filesystem facts consulted by `_get_cachedir` (with `HOME` set):
whether `~/.cache` exists, the outcome of `os.mkdir` on it when missing
(`none` = success, `some n` = `OSError` with errno `n`), whether
`~/.cache/g-ir-scanner` exists, whether it is a directory, and the outcome
of `os.mkdir` on it when missing. -/
structure DirEnv where
  cachedirExists : Bool
  mkdirCachedir : Option Nat
  scannerdirExists : Bool
  scannerdirIsDir : Bool
  mkdirScannerdir : Option Nat
  deriving DecidableEq, Repr

/-- `_get_cachedir()`: `Except.error n` is an `OSError` with errno `n`
escaping the function; `Except.ok none` is the `return None` taken when the
scanner-dir path exists but is not a directory; `Except.ok (some ())` is a
usable cache directory. -/
def _get_cachedir (e : DirEnv) : Except Nat (Option Unit) :=
  match (if e.cachedirExists then none else e.mkdirCachedir) with
  | some n => Except.error n
  | none =>
    if ¬ e.scannerdirExists then
      match e.mkdirScannerdir with
      | none => Except.ok (some ())
      | some n => Except.error n
    else if ¬ e.scannerdirIsDir then Except.ok none
    else Except.ok (some ())

/-- `CacheStore.__init__`: `except OSError, e: if e.errno != errno.EPERM:
raise / self._directory = None`.  `Except.error n` is the re-raised
`OSError`. -/
def initCacheStore (e : DirEnv) : Except Nat CacheStore :=
  match _get_cachedir e with
  | Except.ok d => Except.ok ⟨d⟩
  | Except.error n => if n ≠ EPERM then Except.error n else Except.ok ⟨none⟩

/-! ### String helpers

Python string operations used by `ccompiler.py`, modelled on the character
lists underlying `String` so that they evaluate by kernel reduction. -/

/-- Python `s.startswith(pat)`. -/
def strStartsWith (s pat : String) : Bool :=
  pat.data.isPrefixOf s.data

/-- Python `s.endswith(pat)`. -/
def strEndsWith (s pat : String) : Bool :=
  pat.data.isSuffixOf s.data

/-- Python `s[n:]` (ASCII data, so character indexing equals byte indexing). -/
def strDrop (s : String) (n : Nat) : String :=
  ⟨s.data.drop n⟩

/-- Whether `pat` occurs as a contiguous run inside a character list. -/
def infixOfB (pat : List Char) : List Char → Bool
  | [] => pat.isPrefixOf ([] : List Char)
  | c :: cs => pat.isPrefixOf (c :: cs) || infixOfB pat cs

/-- Python `pat in s` on strings. -/
def containsSubstr (s pat : String) : Bool :=
  infixOfB pat.data s.data

/-- Helper of `pySplit`: cut a character list at whitespace, the current
chunk being accumulated in reverse in `cur`. -/
def splitWsAux : List Char → List Char → List String
  | [], cur => [⟨cur.reverse⟩]
  | c :: cs, cur =>
    if c.isWhitespace then ⟨cur.reverse⟩ :: splitWsAux cs []
    else splitWsAux cs (c :: cur)

/-- Python `line.split()` with no argument: split on whitespace runs,
discarding empty fields. -/
def pySplit (s : String) : List String :=
  (splitWsAux s.data []).filter (fun t => t ≠ "")

/-! ### Import-library resolver (`CCompiler.resolve_windows_libs`) -/

/-- External inputs of one `resolve_windows_libs` call: the toolchain
family (`check_is_msvc`), the library search directories (from the `LIB`
environment variable under MSVC, from `cc -print-search-dirs` otherwise),
which paths exist on disk (`os.path.exists`), and the stdout lines the
external introspection tool (`dumpbin -symbols` / `dlltool --identify`)
prints for a given import-library path. -/
structure ResolveEnv where
  isMsvc : Bool
  libsearch : List String
  pathExists : String → Bool
  toolOutput : String → List String

/-- The token `dumpbin -symbols` output is scanned for; it is 20 characters
long, matching the `item[20:]` slice in the source. -/
def importDescriptorTag : String := "__IMPORT_DESCRIPTOR_"

/-- One line of `dumpbin -symbols` output, scanned as in the source: if the
line contains `__IMPORT_DESCRIPTOR_`, its first whitespace-separated token
starting with that tag yields the DLL name `token[20:] + '.dll'`. -/
def parseMsvcLine (line : String) : Option String :=
  if containsSubstr line importDescriptorTag then
    match (pySplit line).find? (fun item => strStartsWith item importDescriptorTag) with
    | some item => some (strDrop item 20 ++ ".dll")
    | none => none
  else none

/-- The `for line in o.splitlines()` loop over the tool output: under MSVC
the first line yielding an import-descriptor token resolves the library;
otherwise the first output line verbatim is the shared-library name. -/
def parseToolOutput (msvc : Bool) (lines : List String) : Option String :=
  if msvc then lines.findSome? parseMsvcLine else lines.head?

/-- The candidate import-library filenames tried for a requested library,
in source order. -/
def candidates (lib : String) : List String :=
  ["lib" ++ lib ++ ".dll.a",
   "lib" ++ lib ++ ".a",
   lib ++ ".dll.a",
   lib ++ ".a",
   lib ++ ".lib"]

/-- `if l.startswith('='): l = l[1:]`. -/
def stripEqMarker (l : String) : String :=
  if strStartsWith l "=" then strDrop l 1 else l

/-- `os.path.join(l, c)` for a directory and a plain filename. -/
def joinPath (l c : String) : String :=
  l ++ "/" ++ c

/-- The `for c in candidates` loop for one (already `=`-stripped) search
directory: the first existing candidate whose tool output parses resolves
the library; an existing candidate whose output does not parse is skipped. -/
def searchCands (env : ResolveEnv) (dir : String) : List String → Option String
  | [] => none
  | c :: rest =>
    let implib := joinPath dir c
    if env.pathExists implib then
      match parseToolOutput env.isMsvc (env.toolOutput implib) with
      | some s => some s
      | none => searchCands env dir rest
    else searchCands env dir rest

/-- The `for l in libsearch` loop for one library (candidate list `cands`). -/
def searchDirs (env : ResolveEnv) (cands : List String) : List String → Option String
  | [] => none
  | l :: rest =>
    match searchCands env (stripEqMarker l) cands with
    | some s => some s
    | none => searchDirs env cands rest

/-- Resolution of a single requested library: the shared-library name
appended to `shlibs` when `found` becomes true, `none` when the search
terminates with `found` still false. -/
def resolveLib (env : ResolveEnv) (lib : String) : Option String :=
  searchDirs env (candidates lib) env.libsearch

/-- The `for lib in libraries` loop: accumulates `shlibs` and
`not_resolved`, both in request order. -/
def resolveAll (env : ResolveEnv) : List String → List String × List String
  | [] => ([], [])
  | lib :: rest =>
    match resolveLib env lib with
    | some s => (s :: (resolveAll env rest).1, (resolveAll env rest).2)
    | none => ((resolveAll env rest).1, lib :: (resolveAll env rest).2)

/-- The fixed text of the `SystemExit` message. -/
def errHeader : String := "ERROR: can't resolve libraries to shared libraries: "

/-- `CCompiler.resolve_windows_libs(libraries, options)` after the
toolchain-specific setup: `Except.error` is the `SystemExit` raised when
any library is unresolved, carrying the message built from
`", ".join(not_resolved)`. -/
def resolve_windows_libs (env : ResolveEnv) (libraries : List String) :
    Except String (List String) :=
  if 0 < (resolveAll env libraries).2.length then
    Except.error (errHeader ++ String.intercalate ", " (resolveAll env libraries).2)
  else Except.ok (resolveAll env libraries).1

/-- Modelled from the spec: the full candidate-path sequence the claim
describes for one library — for each search directory, with a leading `=`
stripped, the five candidate filenames `lib<name>.dll.a`, `lib<name>.a`,
`<name>.dll.a`, `<name>.a`, `<name>.lib` in exactly that order. -/
def claimSearchSeq (libsearch : List String) (lib : String) : List String :=
  libsearch.flatMap (fun l =>
    ["lib" ++ lib ++ ".dll.a",
     "lib" ++ lib ++ ".a",
     lib ++ ".dll.a",
     lib ++ ".a",
     lib ++ ".lib"].map (fun c => joinPath (stripEqMarker l) c))

/-- Modelled from the spec: take the candidate paths in order and stop at
the first one that exists and whose tool output parses successfully. -/
def firstSuccessfulParse (env : ResolveEnv) (paths : List String) : Option String :=
  paths.findSome? (fun p =>
    if env.pathExists p then parseToolOutput env.isMsvc (env.toolOutput p) else none)

/-! ### Link-flag builders -/

/-- `os.path.isabs` with POSIX semantics. -/
def isAbsPath (p : String) : Bool :=
  strStartsWith p "/"

/-- `CCompiler.get_internal_link_flags(args, libtool, libraries, libpaths)`,
returning the extended argument list (the source mutates `args` in place). -/
def get_internal_link_flags (msvc : Bool) (args : List String) (libtool : Bool)
    (libraries libpaths : List String) : List String :=
  let a1 :=
    if msvc then args
    else if libtool then args ++ ["-L."]
    else args ++ ["-L.", "-Wl,-rpath=.", "-Wl,--no-as-needed"]
  let a2 := libraries.foldl (fun a library =>
    if msvc then a ++ [library ++ ".lib"]
    else if strEndsWith library ".la" then a ++ [library]
    else a ++ ["-l" ++ library]) a1
  libpaths.foldl (fun a library_path =>
    if msvc then a
    else
      let a3 := a ++ ["-L" ++ library_path]
      if isAbsPath library_path then
        if libtool then a3 ++ ["-rpath", library_path]
        else a3 ++ ["-Wl,-rpath=" ++ library_path]
      else a3) a2

/-- `CCompiler.get_external_link_flags(args, libraries)`. -/
def get_external_link_flags (msvc : Bool) (args libraries : List String) : List String :=
  libraries.foldl (fun a library =>
    if msvc then a ++ [library ++ ".lib"]
    else if strEndsWith library ".la" then a ++ [library]
    else a ++ ["-l" ++ library]) args

/-- Modelled from the spec: the per-library decoration rule — `<name>.lib`
under MSVC, a `.la` name verbatim otherwise, `-l<name>` else. -/
def claimDecoration (msvc : Bool) (name : String) : String :=
  if msvc then name ++ ".lib"
  else if strEndsWith name ".la" then name
  else "-l" ++ name

/-- The first stage of `get_internal_link_flags`, before the library loop. -/
def internalPreamble (msvc : Bool) (args : List String) (libtool : Bool) : List String :=
  if msvc then args
  else if libtool then args ++ ["-L."]
  else args ++ ["-L.", "-Wl,-rpath=.", "-Wl,--no-as-needed"]

/-- The last stage of `get_internal_link_flags`, the library-path loop. -/
def internalPathFlags (msvc : Bool) (a : List String) (libtool : Bool)
    (libpaths : List String) : List String :=
  libpaths.foldl (fun a2 library_path =>
    if msvc then a2
    else
      let a3 := a2 ++ ["-L" ++ library_path]
      if isAbsPath library_path then
        if libtool then a3 ++ ["-rpath", library_path]
        else a3 ++ ["-Wl,-rpath=" ++ library_path]
      else a3) a

/-! ### Concrete fixtures used by counterexamples and witnesses -/

/-- A filesystem with no cache entries; every source file has mtime 0. -/
def fsEmpty : FSys Nat := ⟨fun _ => 0, fun _ => none⟩

/-- A filesystem holding a valid (non-stale) cache entry for key `"src.h"`
with value `10`: the entry's mtime 5 is at least the source mtime 0. -/
def fsPre : FSys Nat :=
  ⟨fun _ => 0, fun k => if k = "src.h" then some (5, Content.val 10) else none⟩

/-- A filesystem holding a valid but truncated cache entry for `"src.h"`. -/
def fsCorrupt : FSys Nat :=
  ⟨fun _ => 0, fun k => if k = "src.h" then some (5, Content.truncated) else none⟩

/-- A resolver environment: GCC-style toolchain, two search directories
(the second carrying a `=` marker), exactly one import library on disk, and
a `dlltool --identify` that prints one line. -/
def envW : ResolveEnv :=
  { isMsvc := false
    libsearch := ["/usr/lib", "=/opt/lib"]
    pathExists := fun p => p = "/usr/lib/libbar.dll.a"
    toolOutput := fun _ => ["libbar-1.dll"] }

/-! ### Helper lemmas about the cache store -/

theorem setEntry_entry_self {α : Type} (fs : FSys α) (sf : String)
    (e : Option (Nat × Content α)) : (setEntry fs sf e).entry sf = e := by
  simp [setEntry]

theorem setEntry_srcMtime {α : Type} (fs : FSys α) (sf : String)
    (e : Option (Nat × Content α)) (k2 : String) :
    (setEntry fs sf e).srcMtime k2 = fs.srcMtime k2 := rfl

theorem store_fresh {α : Type} (fs : FSys α) (k : String) (v : α) (now : Nat)
    (hfresh : existsAndValid fs k k = false) :
    store enabledStore fs k v now WriteOutcome.ok
      = (setEntry (setEntry fs k (some (now, Content.truncated))) k
          (some (now, Content.val v)), none) := by
  simp [store, _get_filename, enabledStore, hfresh]

theorem store_skip {α : Type} (fs : FSys α) (k : String) (v : α) (now : Nat)
    (wr : WriteOutcome) (hvalid : existsAndValid fs k k = true) :
    store enabledStore fs k v now wr = (fs, none) := by
  simp [store, _get_filename, enabledStore, hvalid]

theorem load_valid_val {α : Type} (fs : FSys α) (k : String) (mt : Nat) (v : α)
    (hentry : fs.entry k = some (mt, Content.val v))
    (hvalid : fs.srcMtime k ≤ mt) :
    load enabledStore fs k = (fs, Except.ok (some v)) := by
  simp [load, _get_filename, enabledStore, hentry, _cache_is_valid, hvalid]

theorem load_stale {α : Type} (fs : FSys α) (k : String) (mt : Nat) (c : Content α)
    (hentry : fs.entry k = some (mt, c)) (hstale : ¬ fs.srcMtime k ≤ mt) :
    load enabledStore fs k = (fs, Except.ok none) := by
  simp [load, _get_filename, enabledStore, hentry, _cache_is_valid, hstale]

theorem store_fresh_roundtrip {α : Type} (fs : FSys α) (k : String) (v : α) (now : Nat)
    (hfresh : existsAndValid fs k k = false)
    (hnow : fs.srcMtime k ≤ now) :
    load enabledStore ((store enabledStore fs k v now WriteOutcome.ok).1) k
      = ((store enabledStore fs k v now WriteOutcome.ok).1, Except.ok (some v)) := by
  rw [store_fresh fs k v now hfresh]
  exact load_valid_val _ k now v (setEntry_entry_self _ k _) (by
    rw [setEntry_srcMtime, setEntry_srcMtime]; exact hnow)

/-! ### Claim theorems for the cache store -/

/-- C1, counterexample.  The claim's provisos all hold: the source file of
key `"src.h"` exists (mtime 0, never advanced) and caching is enabled.
Yet `store` followed immediately by `load` does not return the stored
value 20: a valid entry with value 10 already existed, `store` skips, and
`load` returns 10. -/
theorem store_then_load_cex :
    (load enabledStore ((store enabledStore fsPre "src.h" 20 7 WriteOutcome.ok).1) "src.h").2
      ≠ Except.ok (some 20) := by decide

/-- C1, amended: `store(k, v)` followed immediately by `load(k)` returns
`v`, provided the source file of `k` exists with its mtime not advanced
and not exceeding the time of the store, caching is enabled, and no valid
(non-stale) entry for `k` already exists when `store` is called. -/
theorem store_then_load_roundtrip (fs : FSys Nat) (k : String) (v now : Nat)
    (hfresh : existsAndValid fs k k = false)
    (hnow : fs.srcMtime k ≤ now) :
    load enabledStore ((store enabledStore fs k v now WriteOutcome.ok).1) k
      = ((store enabledStore fs k v now WriteOutcome.ok).1, Except.ok (some v)) :=
  store_fresh_roundtrip fs k v now hfresh hnow

/-- Witness for the amended C1 at a concrete input. -/
theorem store_then_load_roundtrip_witness :
    existsAndValid fsEmpty "src.h" "src.h" = false
    ∧ fsEmpty.srcMtime "src.h" ≤ 7
    ∧ load enabledStore ((store enabledStore fsEmpty "src.h" 42 7 WriteOutcome.ok).1) "src.h"
        = ((store enabledStore fsEmpty "src.h" 42 7 WriteOutcome.ok).1, Except.ok (some 42)) :=
  ⟨by decide, by decide, store_then_load_roundtrip fsEmpty "src.h" 42 7 (by decide) (by decide)⟩

/-- C2: after `store(k, v)`, advancing the source file's mtime strictly
past the store file's mtime makes `load(k)` return absent, and that load
leaves the filesystem — in particular the stale store file — untouched. -/
theorem touch_then_load_absent (fs : FSys Nat) (k : String) (v now t mt : Nat)
    (c : Content Nat)
    (hentry : ((store enabledStore fs k v now WriteOutcome.ok).1).entry k = some (mt, c))
    (ht : mt < t) :
    load enabledStore (setSrcMtime ((store enabledStore fs k v now WriteOutcome.ok).1) k t) k
      = (setSrcMtime ((store enabledStore fs k v now WriteOutcome.ok).1) k t,
         Except.ok none) := by
  apply load_stale _ k mt c
  · simpa [setSrcMtime] using hentry
  · simp [setSrcMtime]
    omega

/-- Witness for C2 at a concrete input. -/
theorem touch_then_load_absent_witness :
    ((store enabledStore fsEmpty "src.h" 42 7 WriteOutcome.ok).1).entry "src.h"
      = some (7, Content.val 42)
    ∧ (7 : Nat) < 9
    ∧ load enabledStore
        (setSrcMtime ((store enabledStore fsEmpty "src.h" 42 7 WriteOutcome.ok).1) "src.h" 9)
        "src.h"
      = (setSrcMtime ((store enabledStore fsEmpty "src.h" 42 7 WriteOutcome.ok).1) "src.h" 9,
         Except.ok none) :=
  ⟨by decide, by decide,
    touch_then_load_absent fsEmpty "src.h" 42 7 9 7 (Content.val 42) (by decide) (by decide)⟩

/-- C3: starting from a state with no valid entry for `k` (so the first
store writes) and the source's mtime not advancing (and not exceeding the
first store's time), a second `store(k, v2)` — whatever its write outcome
would be — returns the state unchanged and raises nothing, and `load(k)`
still returns `v1`. -/
theorem second_store_noop (fs : FSys Nat) (k : String) (v1 v2 now1 now2 : Nat)
    (wr2 : WriteOutcome)
    (hfresh : existsAndValid fs k k = false)
    (hnow : fs.srcMtime k ≤ now1) :
    store enabledStore ((store enabledStore fs k v1 now1 WriteOutcome.ok).1) k v2 now2 wr2
      = ((store enabledStore fs k v1 now1 WriteOutcome.ok).1, none)
    ∧ load enabledStore ((store enabledStore fs k v1 now1 WriteOutcome.ok).1) k
      = ((store enabledStore fs k v1 now1 WriteOutcome.ok).1, Except.ok (some v1)) := by
  constructor
  · apply store_skip
    rw [store_fresh fs k v1 now1 hfresh]
    simp [existsAndValid, setEntry_entry_self, setEntry_srcMtime, _cache_is_valid]
    exact hnow
  · exact store_fresh_roundtrip fs k v1 now1 hfresh hnow

/-- Witness for C3 at a concrete input. -/
theorem second_store_noop_witness :
    existsAndValid fsEmpty "src.h" "src.h" = false
    ∧ fsEmpty.srcMtime "src.h" ≤ 7
    ∧ store enabledStore ((store enabledStore fsEmpty "src.h" 42 7 WriteOutcome.ok).1)
        "src.h" 43 8 WriteOutcome.ok
      = ((store enabledStore fsEmpty "src.h" 42 7 WriteOutcome.ok).1, none)
    ∧ load enabledStore ((store enabledStore fsEmpty "src.h" 42 7 WriteOutcome.ok).1) "src.h"
      = ((store enabledStore fsEmpty "src.h" 42 7 WriteOutcome.ok).1, Except.ok (some 42)) :=
  ⟨by decide, by decide,
    (second_store_noop fsEmpty "src.h" 42 43 7 8 WriteOutcome.ok (by decide) (by decide)).1,
    (second_store_noop fsEmpty "src.h" 42 43 7 8 WriteOutcome.ok (by decide) (by decide)).2⟩

/-- C4: a non-stale but truncated store file makes `load(k)` return absent
and delete the file, after which `store(k, v)` writes the value and raises
nothing. -/
theorem corrupt_load_selfheal (fs : FSys Nat) (k : String) (mt now v : Nat)
    (hentry : fs.entry k = some (mt, Content.truncated))
    (hvalid : fs.srcMtime k ≤ mt) :
    (load enabledStore fs k).2 = Except.ok none
    ∧ ((load enabledStore fs k).1).entry k = none
    ∧ (store enabledStore ((load enabledStore fs k).1) k v now WriteOutcome.ok).2 = none
    ∧ ((store enabledStore ((load enabledStore fs k).1) k v now WriteOutcome.ok).1).entry k
        = some (now, Content.val v) := by
  have hload : load enabledStore fs k = (setEntry fs k none, Except.ok none) := by
    simp [load, _get_filename, enabledStore, hentry, _cache_is_valid, hvalid, _purge_cache]
  have hfresh : existsAndValid (setEntry fs k none) k k = false := by
    simp [existsAndValid, setEntry_entry_self]
  refine ⟨by rw [hload], by rw [hload]; exact setEntry_entry_self fs k none, ?_, ?_⟩
  · rw [hload, store_fresh _ k v now hfresh]
  · rw [hload, store_fresh _ k v now hfresh]
    exact setEntry_entry_self _ k _

/-- Witness for C4 at a concrete input. -/
theorem corrupt_load_selfheal_witness :
    fsCorrupt.entry "src.h" = some (5, Content.truncated)
    ∧ fsCorrupt.srcMtime "src.h" ≤ 5
    ∧ (load enabledStore fsCorrupt "src.h").2 = Except.ok none
    ∧ ((load enabledStore fsCorrupt "src.h").1).entry "src.h" = none
    ∧ (store enabledStore ((load enabledStore fsCorrupt "src.h").1) "src.h" 42 7
        WriteOutcome.ok).2 = none
    ∧ ((store enabledStore ((load enabledStore fsCorrupt "src.h").1) "src.h" 42 7
        WriteOutcome.ok).1).entry "src.h" = some (7, Content.val 42) := by
  have h := corrupt_load_selfheal fsCorrupt "src.h" 5 7 42 (by decide) (by decide)
  exact ⟨by decide, by decide, h.1, h.2.1, h.2.2.1, h.2.2.2⟩

/-- C5, code bug: when `cPickle.dump` fails with `IOError` errno `ENOSPC`
(no space left on device), `store` does not swallow the failure — the
handler's comparison `e.errno == e.ENOSPC` reads a nonexistent attribute
off the `IOError` instance, so an `AttributeError` propagates to the
caller, and the value is not cached (a truncated store file is left
behind). -/
theorem store_enospc_raises :
    (store enabledStore fsEmpty "src.h" 42 5 (WriteOutcome.ioError ENOSPC)).2
      = some PyErr.attributeError
    ∧ ((store enabledStore fsEmpty "src.h" 42 5 (WriteOutcome.ioError ENOSPC)).1).entry "src.h"
      = some (5, Content.truncated)
    ∧ (∀ n, (store enabledStore fsEmpty "src.h" 42 5 (WriteOutcome.ioError n)).2
        = some PyErr.attributeError) := by
  refine ⟨by decide, by decide, fun n => ?_⟩
  simp [store, _get_filename, enabledStore, existsAndValid, fsEmpty, storeDumpHandler,
    ioErrorAttr]

/-- C6, code bug: `CacheStore.__init__` swallows only `OSError` errno
`EPERM`.  When creating the cache directory fails with `EACCES` — the
errno a permissions failure such as an unwritable home directory actually
produces — the constructor re-raises instead of disabling caching.  The
`EPERM` case and the exists-as-non-directory case do disable caching, and
with caching disabled every `store` and `load` is a no-op returning
absent. -/
theorem init_readonly_home_raises :
    initCacheStore ⟨true, none, false, true, some EACCES⟩ = Except.error EACCES
    ∧ initCacheStore ⟨true, none, false, true, some EPERM⟩ = Except.ok ⟨none⟩
    ∧ initCacheStore ⟨true, none, true, false, none⟩ = Except.ok ⟨none⟩
    ∧ (∀ (fs : FSys Nat) (k : String) (v now : Nat) (wr : WriteOutcome),
        store ⟨none⟩ fs k v now wr = (fs, none))
    ∧ (∀ (fs : FSys Nat) (k : String), load ⟨none⟩ fs k = (fs, Except.ok none)) :=
  ⟨by decide, by decide, by decide, fun fs k v now wr => rfl, fun fs k => rfl⟩

/-! ### Helper lemmas about the resolver -/

theorem findSome?_append_eq {α β : Type} (l1 l2 : List α) (f : α → Option β) :
    (l1 ++ l2).findSome? f
      = match l1.findSome? f with
        | some b => some b
        | none => l2.findSome? f := by
  induction l1 with
  | nil => simp [List.findSome?]
  | cons a l ih =>
    simp only [List.cons_append, List.findSome?_cons]
    cases f a <;> simp [ih]

theorem searchCands_eq_spec (env : ResolveEnv) (d : String) (cs : List String) :
    searchCands env d cs
      = (cs.map (joinPath d)).findSome? (fun p =>
          if env.pathExists p then parseToolOutput env.isMsvc (env.toolOutput p) else none) := by
  induction cs with
  | nil => rfl
  | cons c rest ih =>
    simp only [searchCands, List.map_cons, List.findSome?_cons]
    by_cases h : env.pathExists (joinPath d c)
    · rw [if_pos h, if_pos h]
      cases parseToolOutput env.isMsvc (env.toolOutput (joinPath d c)) <;> simp [ih]
    · rw [if_neg h, if_neg h]
      simp [ih]

theorem searchDirs_eq_spec (env : ResolveEnv) (cands : List String) (ls : List String) :
    searchDirs env cands ls
      = (ls.flatMap (fun l => cands.map (joinPath (stripEqMarker l)))).findSome? (fun p =>
          if env.pathExists p then parseToolOutput env.isMsvc (env.toolOutput p) else none) := by
  induction ls with
  | nil => rfl
  | cons l rest ih =>
    simp only [searchDirs, List.flatMap_cons, findSome?_append_eq, ← searchCands_eq_spec]
    cases searchCands env (stripEqMarker l) cands <;> simp [ih]

theorem searchCands_none (env : ResolveEnv) (d : String) (cs : List String)
    (h : ∀ c ∈ cs, env.pathExists (joinPath d c) = false) :
    searchCands env d cs = none := by
  induction cs with
  | nil => rfl
  | cons c rest ih =>
    simp only [searchCands]
    rw [h c (by simp)]
    simp only [Bool.false_eq_true, if_false]
    exact ih (fun c2 hc2 => h c2 (by simp [hc2]))

theorem searchDirs_none (env : ResolveEnv) (cands : List String) (ls : List String)
    (h : ∀ l ∈ ls, searchCands env (stripEqMarker l) cands = none) :
    searchDirs env cands ls = none := by
  induction ls with
  | nil => rfl
  | cons l rest ih =>
    simp only [searchDirs]
    rw [h l (by simp)]
    exact ih (fun l2 hl2 => h l2 (by simp [hl2]))

theorem resolveLib_none_of_no_candidate (env : ResolveEnv) (lib : String)
    (hnone : ∀ l ∈ env.libsearch, ∀ c ∈ candidates lib,
      env.pathExists (joinPath (stripEqMarker l) c) = false) :
    resolveLib env lib = none :=
  searchDirs_none env (candidates lib) env.libsearch
    (fun l hl => searchCands_none env (stripEqMarker l) (candidates lib)
      (fun c hc => hnone l hl c hc))

theorem resolveAll_eq_spec (env : ResolveEnv) (libs : List String) :
    resolveAll env libs
      = (libs.filterMap (fun lib => resolveLib env lib),
         libs.filter (fun lib => (resolveLib env lib).isNone)) := by
  induction libs with
  | nil => rfl
  | cons lib rest ih =>
    simp only [resolveAll, ih, List.filterMap_cons, List.filter_cons]
    cases h : resolveLib env lib <;> simp [h]

theorem resolveAll_ok_forall2 (env : ResolveEnv) (libs : List String)
    (h : (resolveAll env libs).2 = []) :
    List.Forall₂ (fun lib s => resolveLib env lib = some s) libs (resolveAll env libs).1 := by
  induction libs with
  | nil => exact List.Forall₂.nil
  | cons lib rest ih =>
    cases hr : resolveLib env lib with
    | some s =>
      simp only [resolveAll, hr] at h ⊢
      exact List.Forall₂.cons hr (ih h)
    | none =>
      simp only [resolveAll, hr] at h
      exact absurd h (by simp)

/-! ### Claim theorems for the resolver -/

/-- C7: when some requested library has no existing candidate
import-library file in any (`=`-stripped) search directory, the resolver
raises `SystemExit` whose message is the fixed header followed by the
comma-joined list of exactly the unresolved libraries: every unresolved
library is in that list, the library with no candidate among them, and no
resolved library is. -/
theorem resolver_fatal_unresolved (env : ResolveEnv) (libraries : List String) (lib0 : String)
    (hmem : lib0 ∈ libraries)
    (hnone : ∀ l ∈ env.libsearch, ∀ c ∈ candidates lib0,
      env.pathExists (joinPath (stripEqMarker l) c) = false) :
    resolve_windows_libs env libraries
      = Except.error (errHeader ++ String.intercalate ", "
          (libraries.filter (fun lib => (resolveLib env lib).isNone)))
    ∧ lib0 ∈ libraries.filter (fun lib => (resolveLib env lib).isNone)
    ∧ (∀ l2 s, resolveLib env l2 = some s →
        l2 ∉ libraries.filter (fun lib => (resolveLib env lib).isNone)) := by
  have h0 : resolveLib env lib0 = none := resolveLib_none_of_no_candidate env lib0 hnone
  have hmemf : lib0 ∈ libraries.filter (fun lib => (resolveLib env lib).isNone) :=
    List.mem_filter.mpr ⟨hmem, by simp [h0]⟩
  refine ⟨?_, hmemf, ?_⟩
  · have hpos : 0 < (resolveAll env libraries).2.length := by
      rw [resolveAll_eq_spec]
      exact List.length_pos.mpr (List.ne_nil_of_mem hmemf)
    rw [resolve_windows_libs, if_pos hpos, resolveAll_eq_spec]
  · intro l2 s hs hmem2
    have h2 := (List.mem_filter.mp hmem2).2
    simp [hs] at h2

/-- Witness for C7: `"bar"` resolves, `"baz"` has no candidate anywhere,
and the failure message names `"baz"` alone. -/
theorem resolver_fatal_unresolved_witness :
    ("baz" ∈ ["bar", "baz"]
    ∧ (∀ l ∈ envW.libsearch, ∀ c ∈ candidates "baz",
        envW.pathExists (joinPath (stripEqMarker l) c) = false))
    ∧ resolve_windows_libs envW ["bar", "baz"]
        = Except.error (errHeader ++ String.intercalate ", "
            ((["bar", "baz"] : List String).filter (fun lib => (resolveLib envW lib).isNone)))
    ∧ "baz" ∈ (["bar", "baz"] : List String).filter (fun lib => (resolveLib envW lib).isNone)
    ∧ (∀ l2 s, resolveLib envW l2 = some s →
        l2 ∉ (["bar", "baz"] : List String).filter (fun lib => (resolveLib envW lib).isNone)) := by
  have h := resolver_fatal_unresolved envW ["bar", "baz"] "baz" (by decide) (by decide)
  exact ⟨⟨by decide, by decide⟩, h.1, h.2.1, h.2.2⟩

/-- C8: for each library the resolver tries, per search directory with a
leading `=` stripped before the existence check, the candidates
`lib<name>.dll.a`, `lib<name>.a`, `<name>.dll.a`, `<name>.a`, `<name>.lib`
in exactly that order, and returns the result of the first candidate that
exists and whose tool output parses successfully; in particular
`"=/opt/lib"` is searched as `"/opt/lib"`. -/
theorem resolver_search_order :
    (∀ (env : ResolveEnv) (lib : String),
      resolveLib env lib = firstSuccessfulParse env (claimSearchSeq env.libsearch lib))
    ∧ stripEqMarker "=/opt/lib" = "/opt/lib" := by
  refine ⟨fun env lib => ?_, by decide⟩
  rw [resolveLib, firstSuccessfulParse, claimSearchSeq]
  exact searchDirs_eq_spec env (candidates lib) env.libsearch

/-- C10: whenever `resolve_windows_libs` returns normally, the returned
list pairs up with the requested libraries one to one and in order — each
returned name is the resolution of the requested library at the same
position — so its length equals the number of requested libraries. -/
theorem resolver_ok_one_per_lib (env : ResolveEnv) (libraries shlibs : List String)
    (h : resolve_windows_libs env libraries = Except.ok shlibs) :
    List.Forall₂ (fun lib s => resolveLib env lib = some s) libraries shlibs
    ∧ shlibs.length = libraries.length := by
  rw [resolve_windows_libs] at h
  by_cases h2 : 0 < (resolveAll env libraries).2.length
  · rw [if_pos h2] at h
    exact absurd h (by simp)
  · rw [if_neg h2] at h
    have hnil : (resolveAll env libraries).2 = [] := by
      cases hx : (resolveAll env libraries).2 with
      | nil => rfl
      | cons a l => rw [hx] at h2; simp at h2
    have hsh : (resolveAll env libraries).1 = shlibs := by
      cases h; rfl
    have hf := resolveAll_ok_forall2 env libraries hnil
    rw [hsh] at hf
    exact ⟨hf, hf.length_eq.symm⟩

/-- Witness for C10 at a concrete input. -/
theorem resolver_ok_one_per_lib_witness :
    resolve_windows_libs envW ["bar"] = Except.ok ["libbar-1.dll"]
    ∧ List.Forall₂ (fun lib s => resolveLib envW lib = some s) ["bar"] ["libbar-1.dll"]
    ∧ (["libbar-1.dll"] : List String).length = (["bar"] : List String).length := by
  have h := resolver_ok_one_per_lib envW ["bar"] ["libbar-1.dll"] (by decide)
  exact ⟨by decide, h.1, h.2⟩

/-! ### Claim theorem for the link-flag builders -/

theorem decor_foldl (msvc : Bool) (libs : List String) : ∀ (args : List String),
    libs.foldl (fun a library =>
      if msvc then a ++ [library ++ ".lib"]
      else if strEndsWith library ".la" then a ++ [library]
      else a ++ ["-l" ++ library]) args
    = args ++ libs.map (claimDecoration msvc) := by
  induction libs with
  | nil => intro args; simp
  | cons lib rest ih =>
    intro args
    have hstep :
        (if msvc then args ++ [lib ++ ".lib"]
         else if strEndsWith lib ".la" then args ++ [lib]
         else args ++ ["-l" ++ lib]) = args ++ [claimDecoration msvc lib] := by
      by_cases hm : msvc
      · simp [claimDecoration, hm]
      · by_cases hl : strEndsWith lib ".la" <;> simp [claimDecoration, hm, hl]
    simp only [List.foldl_cons, hstep, ih, List.map_cons]
    simp

/-- C9: in both link-flag builders every library name is decorated the
same way — `<name>.lib` under MSVC, a `.la` name verbatim under a
non-MSVC toolchain, `-l<name>` otherwise — with the concrete instances
`"foo"` ↦ `"foo.lib"` (MSVC) and `"-lfoo"` (Unix), and `"libfoo.la"`
passed through on Unix. -/
theorem link_flag_decoration :
    (∀ (msvc libtool : Bool) (args libraries libpaths : List String),
      get_external_link_flags msvc args libraries
        = args ++ libraries.map (claimDecoration msvc)
      ∧ get_internal_link_flags msvc args libtool libraries libpaths
        = internalPathFlags msvc (internalPreamble msvc args libtool
            ++ libraries.map (claimDecoration msvc)) libtool libpaths)
    ∧ get_external_link_flags true [] ["foo"] = ["foo.lib"]
    ∧ get_external_link_flags false [] ["foo"] = ["-lfoo"]
    ∧ get_external_link_flags false [] ["libfoo.la"] = ["libfoo.la"] := by
  refine ⟨fun msvc libtool args libraries libpaths => ⟨?_, ?_⟩, by decide, by decide, by decide⟩
  · rw [get_external_link_flags, decor_foldl]
  · rw [get_internal_link_flags, internalPathFlags, internalPreamble, decor_foldl]

end GIR
